import Mathlib

/-!
Verification of the MayaUsd bridge-layer fragment:
`lib/mayaUsd/ufe/UsdTransform3d.cpp` (UFE Transform3d run-time interface over
USD prims) and `lib/mayaUsd/render/pxrUsdMayaGL/hdRenderer.h` (legacy-viewport
Hydra renderer interface).

The C++ code is shallowly embedded: doubles become rationals, nullable
pointers become `Option`, and undefined behaviour (dereferencing a null
`fItem`) or a thrown C++ exception become the error side of an `Except`.
Each member function of `UsdTransform3d` is a Lean function on an explicit
state; mutating members return the updated state.
-/

set_option autoImplicit false

/-- Errors a C++ member function can exhibit in the embedding: dereferencing
a null pointer (undefined behaviour), or throwing an exception with a
message. -/
inductive CppError where
  | nullDeref
  | exn (msg : String)
deriving DecidableEq

/-- Result of running an embedded C++ member function. -/
abbrev Cpp (α : Type) := Except CppError α

/-- Time codes (`UsdTimeCode`), embedded as rationals. -/
abbrev TimeCode := ℚ

/-- `GfVec3d`: a 3-vector of doubles, embedded over the rationals. -/
structure GfVec3d where
  x : ℚ
  y : ℚ
  z : ℚ
deriving DecidableEq

/-- `GfVec3f`: a 3-vector of floats, embedded over the rationals. -/
structure GfVec3f where
  x : ℚ
  y : ℚ
  z : ℚ
deriving DecidableEq

/-- `Ufe::Vector3d`, as returned by the Transform3d observers. -/
structure Vector3d where
  x : ℚ
  y : ℚ
  z : ℚ
deriving DecidableEq

/-- The typed values an xformOp attribute can hold (`VtValue` restricted to
the two types this file reads: `GfVec3d` and `GfVec3f`). -/
inductive VtValue where
  | vec3d (v : GfVec3d)
  | vec3f (v : GfVec3f)
deriving DecidableEq

/-- A USD attribute: its authored time samples.  `UsdAttribute::Get` at a
time succeeds only when a sample is authored there (an attribute can exist
and still be valueless, as the source comments note). -/
structure UsdAttribute where
  samples : List (TimeCode × VtValue)
deriving DecidableEq

/-- Look up the sample authored at time `t` (first match wins). -/
def UsdAttribute.get (a : UsdAttribute) (t : TimeCode) : Option VtValue :=
  findSample a.samples t
where
  findSample : List (TimeCode × VtValue) → TimeCode → Option VtValue
    | [], _ => none
    | (t0, v) :: rest, t => if t0 = t then some v else findSample rest t

/-- 4x4 double matrices (`GfMatrix4d` / `Ufe::Matrix4d`), over the
rationals. -/
abbrev Mat4 := Matrix (Fin 4) (Fin 4) ℚ

/-- A USD prim: its attributes (an association list keyed by token name),
its local transform and its parent-to-world transform, both time-sampled.
The two matrix fields model what the external `UsdGeomXformCache` computes
for this prim from the composed stage; an unauthored time evaluates to the
identity. -/
structure UsdPrim where
  attributes : List (String × UsdAttribute)
  localXform : List (TimeCode × Mat4)
  parentToWorld : List (TimeCode × Mat4)

/-- Association-list lookup for attributes by token. -/
def findAttr : List (String × UsdAttribute) → String → Option UsdAttribute
  | [], _ => none
  | (tok0, a) :: rest, tok => if tok0 = tok then some a else findAttr rest tok

/-- `UsdPrim::HasAttribute`. -/
def UsdPrim.HasAttribute (p : UsdPrim) (tok : String) : Bool :=
  (findAttr p.attributes tok).isSome

/-- `UsdPrim::GetAttribute`. -/
def UsdPrim.GetAttribute (p : UsdPrim) (tok : String) : Option UsdAttribute :=
  findAttr p.attributes tok

/-- `attr.Get<GfVec3d>(&v, t)`: succeeds only when the attribute holds a
`GfVec3d` sample at `t`. -/
def getAttrVec3d (p : UsdPrim) (tok : String) (t : TimeCode) : Option GfVec3d :=
  match (findAttr p.attributes tok).bind (fun a => a.get t) with
  | some (VtValue.vec3d v) => some v
  | _ => none

/-- `attr.Get<GfVec3f>(&v, t)`: succeeds only when the attribute holds a
`GfVec3f` sample at `t`. -/
def getAttrVec3f (p : UsdPrim) (tok : String) (t : TimeCode) : Option GfVec3f :=
  match (findAttr p.attributes tok).bind (fun a => a.get t) with
  | some (VtValue.vec3f v) => some v
  | _ => none

/-- A UFE path.  Its segments locate the item; `time` models the evaluation
time the run-time associates with the path. -/
structure UfePath where
  segments : List String
  time : ℚ
deriving DecidableEq

/-- Modelled from the spec: `getTime` (declared in `mayaUsd/ufe/Utils.h`,
whose implementation is not under `src/`) maps a UFE path to the time code
at which the run-time evaluates attributes for that path. -/
def getTime (p : UfePath) : TimeCode := p.time

/-- `UsdSceneItem`: a scene item holding a UFE path and a USD prim. -/
structure UsdSceneItem where
  path : UfePath
  prim : UsdPrim

/-- `UsdTransform3d`: the Transform3d interface object.  `fItem` is a
`UsdSceneItem::Ptr`, a nullable shared pointer, hence an `Option`. -/
structure UsdTransform3d where
  fItem : Option UsdSceneItem

/-- The parameterless `UsdTransform3d::create()`: default-constructs the
object, so `fItem` is the null pointer. -/
def UsdTransform3d.create : UsdTransform3d := { fItem := none }

/-- `UsdTransform3d::create(item)`: constructs the object holding `item`
(the pointer argument itself may be null). -/
def UsdTransform3d.createWithItem (item : Option UsdSceneItem) : UsdTransform3d :=
  { fItem := item }

/-- `UsdTransform3d::setItem(item)`. -/
def UsdTransform3d.setItem (tr : UsdTransform3d) (item : Option UsdSceneItem) :
    UsdTransform3d :=
  { tr with fItem := item }

/-- `UsdTransform3d::path()`: returns `fItem->path()`, dereferencing
`fItem`. -/
def UsdTransform3d.path (tr : UsdTransform3d) : Cpp UfePath :=
  match tr.fItem with
  | none => .error .nullDeref
  | some item => .ok item.path

/-- `UsdTransform3d::sceneItem()`: returns the (nullable) `fItem` pointer by
value, without dereferencing it, so it never exhibits undefined
behaviour. -/
def UsdTransform3d.sceneItem (tr : UsdTransform3d) : Cpp (Option UsdSceneItem) :=
  .ok tr.fItem

/-- `UsdTransform3d::translation()`: reads `xformOp:translate` as `GfVec3d`
at `getTime(path())`; components default to 0 when the attribute is absent
or has no value there. -/
def UsdTransform3d.translation (tr : UsdTransform3d) : Cpp Vector3d :=
  match tr.fItem with
  | none => .error .nullDeref
  | some item =>
    if item.prim.HasAttribute "xformOp:translate" then
      match getAttrVec3d item.prim "xformOp:translate" (getTime item.path) with
      | some v => .ok ⟨v.x, v.y, v.z⟩
      | none => .ok ⟨0, 0, 0⟩
    else .ok ⟨0, 0, 0⟩

/-- `UsdTransform3d::rotation()`: reads `xformOp:rotateXYZ` as `GfVec3f`;
same defaulting as `translation`. -/
def UsdTransform3d.rotation (tr : UsdTransform3d) : Cpp Vector3d :=
  match tr.fItem with
  | none => .error .nullDeref
  | some item =>
    if item.prim.HasAttribute "xformOp:rotateXYZ" then
      match getAttrVec3f item.prim "xformOp:rotateXYZ" (getTime item.path) with
      | some v => .ok ⟨v.x, v.y, v.z⟩
      | none => .ok ⟨0, 0, 0⟩
    else .ok ⟨0, 0, 0⟩

/-- `UsdTransform3d::scale()` (the observer): reads `xformOp:scale` as
`GfVec3f`; same defaulting as `translation`. -/
def UsdTransform3d.scale (tr : UsdTransform3d) : Cpp Vector3d :=
  match tr.fItem with
  | none => .error .nullDeref
  | some item =>
    if item.prim.HasAttribute "xformOp:scale" then
      match getAttrVec3f item.prim "xformOp:scale" (getTime item.path) with
      | some v => .ok ⟨v.x, v.y, v.z⟩
      | none => .ok ⟨0, 0, 0⟩
    else .ok ⟨0, 0, 0⟩

/-- `UsdTransform3d::rotatePivot()`: reads `xformOp:translate:pivot` as
`GfVec3f`; same defaulting as `translation`. -/
def UsdTransform3d.rotatePivot (tr : UsdTransform3d) : Cpp Vector3d :=
  match tr.fItem with
  | none => .error .nullDeref
  | some item =>
    if item.prim.HasAttribute "xformOp:translate:pivot" then
      match getAttrVec3f item.prim "xformOp:translate:pivot" (getTime item.path) with
      | some v => .ok ⟨v.x, v.y, v.z⟩
      | none => .ok ⟨0, 0, 0⟩
    else .ok ⟨0, 0, 0⟩

/-- `UsdTransform3d::scalePivot()`: delegates to `rotatePivot()`
(source line 257). -/
def UsdTransform3d.scalePivot (tr : UsdTransform3d) : Cpp Vector3d :=
  tr.rotatePivot

/-- Author (create or overwrite) the sample of attribute `tok` at time `t`
in an attribute association list. -/
def setAttrList : List (String × UsdAttribute) → String → TimeCode → VtValue →
    List (String × UsdAttribute)
  | [], tok, t, v => [(tok, ⟨[(t, v)]⟩)]
  | (tok0, a) :: rest, tok, t, v =>
    if tok0 = tok then (tok0, ⟨(t, v) :: a.samples⟩) :: rest
    else (tok0, a) :: setAttrList rest tok t v

/-- Author attribute `tok` of a prim at time `t` to value `v`. -/
def UsdPrim.setAttr (p : UsdPrim) (tok : String) (t : TimeCode) (v : VtValue) :
    UsdPrim :=
  { p with attributes := setAttrList p.attributes tok t v }

/-- Modelled from the spec: `translateOp` (declared in `private/Utils.h`,
whose implementation is not under `src/`) authors the prim's
`xformOp:translate` attribute (double precision) to `(x, y, z)` at the time
obtained from the path. -/
def translateOp (prim : UsdPrim) (path : UfePath) (x y z : ℚ) : UsdPrim :=
  prim.setAttr "xformOp:translate" (getTime path) (VtValue.vec3d ⟨x, y, z⟩)

/-- Modelled from the spec: `rotateOp` (declared in `private/Utils.h`, not
under `src/`) authors the prim's `xformOp:rotateXYZ` attribute (float
precision) to `(x, y, z)` at the time obtained from the path. -/
def rotateOp (prim : UsdPrim) (path : UfePath) (x y z : ℚ) : UsdPrim :=
  prim.setAttr "xformOp:rotateXYZ" (getTime path) (VtValue.vec3f ⟨x, y, z⟩)

/-- Modelled from the spec: `scaleOp` (declared in `private/Utils.h`, not
under `src/`) authors the prim's `xformOp:scale` attribute (float precision)
to `(x, y, z)` at the time obtained from the path. -/
def scaleOp (prim : UsdPrim) (path : UfePath) (x y z : ℚ) : UsdPrim :=
  prim.setAttr "xformOp:scale" (getTime path) (VtValue.vec3f ⟨x, y, z⟩)

/-- Modelled from the spec: `rotatePivotTranslateOp` (declared in
`private/Utils.h`, not under `src/`) authors the prim's
`xformOp:translate:pivot` attribute (float precision) to `(x, y, z)` at the
time obtained from the path. -/
def rotatePivotTranslateOp (prim : UsdPrim) (path : UfePath) (x y z : ℚ) :
    UsdPrim :=
  prim.setAttr "xformOp:translate:pivot" (getTime path) (VtValue.vec3f ⟨x, y, z⟩)

/-- `UsdTransform3d::translate(x, y, z)`: calls
`translateOp(fItem->prim(), fItem->path(), x, y, z)`, dereferencing `fItem`;
the updated object is returned explicitly. -/
def UsdTransform3d.translate (tr : UsdTransform3d) (x y z : ℚ) :
    Cpp UsdTransform3d :=
  match tr.fItem with
  | none => .error .nullDeref
  | some item =>
    .ok { tr with fItem := some { item with prim := translateOp item.prim item.path x y z } }

/-- `UsdTransform3d::rotate(x, y, z)`: calls
`rotateOp(fItem->prim(), fItem->path(), x, y, z)`. -/
def UsdTransform3d.rotate (tr : UsdTransform3d) (x y z : ℚ) :
    Cpp UsdTransform3d :=
  match tr.fItem with
  | none => .error .nullDeref
  | some item =>
    .ok { tr with fItem := some { item with prim := rotateOp item.prim item.path x y z } }

/-- `UsdTransform3d::scale(x, y, z)` (the mutator overload of `scale`):
calls `scaleOp(fItem->prim(), fItem->path(), x, y, z)`. -/
def UsdTransform3d.scaleSet (tr : UsdTransform3d) (x y z : ℚ) :
    Cpp UsdTransform3d :=
  match tr.fItem with
  | none => .error .nullDeref
  | some item =>
    .ok { tr with fItem := some { item with prim := scaleOp item.prim item.path x y z } }

/-- `UsdTransform3d::rotatePivotTranslate(x, y, z)`: calls
`rotatePivotTranslateOp(fItem->prim(), path(), x, y, z)`. -/
def UsdTransform3d.rotatePivotTranslate (tr : UsdTransform3d) (x y z : ℚ) :
    Cpp UsdTransform3d :=
  match tr.fItem with
  | none => .error .nullDeref
  | some item =>
    .ok { tr with fItem := some { item with prim := rotatePivotTranslateOp item.prim item.path x y z } }

/-- `UsdTransform3d::scalePivotTranslate(x, y, z)`: delegates to
`rotatePivotTranslate(x, y, z)` (source line 252). -/
def UsdTransform3d.scalePivotTranslate (tr : UsdTransform3d) (x y z : ℚ) :
    Cpp UsdTransform3d :=
  tr.rotatePivotTranslate x y z

/-- The undoable commands the factories create, each recording the target
path and its constructor arguments. -/
inductive UndoableCommand where
  | translateCmd (p : UfePath) (x y z : ℚ)
  | rotateCmd (p : UfePath) (x y z : ℚ)
  | scaleCmd (p : UfePath) (x y z : ℚ)
  | rotatePivotTranslateCmd (p : UfePath)
deriving DecidableEq

/-- `UsdTransform3d::translateCmd(x, y, z)` (compiled when
`UFE_PREVIEW_VERSION_NUM >= 2013`): creates a
`UsdTranslateUndoableCommand` on `path()`. -/
def UsdTransform3d.translateCmd (tr : UsdTransform3d) (x y z : ℚ) :
    Cpp UndoableCommand :=
  (tr.path).map fun p => UndoableCommand.translateCmd p x y z

/-- `UsdTransform3d::rotateCmd(x, y, z)` (compiled when
`UFE_PREVIEW_VERSION_NUM >= 2013`): creates a `UsdRotateUndoableCommand` on
`path()`. -/
def UsdTransform3d.rotateCmd (tr : UsdTransform3d) (x y z : ℚ) :
    Cpp UndoableCommand :=
  (tr.path).map fun p => UndoableCommand.rotateCmd p x y z

/-- `UsdTransform3d::scaleCmd(x, y, z)` (compiled when
`UFE_PREVIEW_VERSION_NUM >= 2013`): creates a `UsdScaleUndoableCommand` on
`path()`. -/
def UsdTransform3d.scaleCmd (tr : UsdTransform3d) (x y z : ℚ) :
    Cpp UndoableCommand :=
  (tr.path).map fun p => UndoableCommand.scaleCmd p x y z

/-- `UsdTransform3d::translateCmd()` (the parameterless overload compiled
when `UFE_PREVIEW_VERSION_NUM < 2013`): creates the command with
`(0, 0, 0)`. -/
def UsdTransform3d.translateCmdLegacy (tr : UsdTransform3d) :
    Cpp UndoableCommand :=
  (tr.path).map fun p => UndoableCommand.translateCmd p 0 0 0

/-- `UsdTransform3d::rotateCmd()` (the parameterless overload compiled when
`UFE_PREVIEW_VERSION_NUM < 2013`): creates the command with `(0, 0, 0)`. -/
def UsdTransform3d.rotateCmdLegacy (tr : UsdTransform3d) :
    Cpp UndoableCommand :=
  (tr.path).map fun p => UndoableCommand.rotateCmd p 0 0 0

/-- `UsdTransform3d::scaleCmd()` (the parameterless overload compiled when
`UFE_PREVIEW_VERSION_NUM < 2013`): creates the command with `(1, 1, 1)`. -/
def UsdTransform3d.scaleCmdLegacy (tr : UsdTransform3d) :
    Cpp UndoableCommand :=
  (tr.path).map fun p => UndoableCommand.scaleCmd p 1 1 1

/-- `UsdTransform3d::rotatePivotTranslateCmd()`: creates a
`UsdRotatePivotTranslateUndoableCommand` on `fItem->path()`, dereferencing
`fItem`. -/
def UsdTransform3d.rotatePivotTranslateCmd (tr : UsdTransform3d) :
    Cpp UndoableCommand :=
  match tr.fItem with
  | none => .error .nullDeref
  | some item => .ok (UndoableCommand.rotatePivotTranslateCmd item.path)

/-- `UsdTransform3d::scalePivotTranslateCmd()`: unconditionally throws
`std::runtime_error` (source line 247). -/
def UsdTransform3d.scalePivotTranslateCmd (_tr : UsdTransform3d) :
    Cpp UndoableCommand :=
  .error (.exn "UsdTransform3d::scalePivotTranslateCmd() not implemented")

/-- `UsdTransform3d::setMatrixCmd(m)` (compiled when
`UFE_PREVIEW_VERSION_NUM >= 2021`): the body is an explicit TODO stub and
returns `nullptr` (a null command pointer), ignoring both the item and the
requested matrix. -/
def UsdTransform3d.setMatrixCmd (_tr : UsdTransform3d) (_m : Mat4) :
    Cpp (Option UndoableCommand) :=
  .ok none

/-- The matrix a default-constructed `Ufe::Matrix4d` holds; its entries are
indeterminate in C++, modelled here as zeros. -/
def defaultUfeMatrix4d : Mat4 := Matrix.of fun _ _ => 0

/-- `UsdTransform3d::getMatrix()` (compiled when
`UFE_PREVIEW_VERSION_NUM >= 2021`): the body is an explicit TODO stub and
returns a default-constructed `Ufe::Matrix4d`, ignoring the item. -/
def UsdTransform3d.getMatrix (_tr : UsdTransform3d) : Cpp Mat4 :=
  .ok defaultUfeMatrix4d

/-- Evaluate a time-sampled matrix at `t`; unauthored times evaluate to the
identity. -/
def sampledMat : List (TimeCode × Mat4) → TimeCode → Mat4
  | [], _ => 1
  | (t0, m) :: rest, t => if t0 = t then m else sampledMat rest t

/-- The prim's local transform at time `t`. -/
def UsdPrim.localXformAt (p : UsdPrim) (t : TimeCode) : Mat4 :=
  sampledMat p.localXform t

/-- Modelled from the external `UsdGeomXformCache(time)`:
`GetParentToWorldTransform(prim)` composes the transforms of the prim's
ancestors. -/
def GetParentToWorldTransform (p : UsdPrim) (t : TimeCode) : Mat4 :=
  sampledMat p.parentToWorld t

/-- Modelled from the external `UsdGeomXformCache(time)`:
`GetLocalToWorldTransform(prim)` is the prim's local transform composed with
its parent-to-world transform (USD row-vector convention). -/
def GetLocalToWorldTransform (p : UsdPrim) (t : TimeCode) : Mat4 :=
  p.localXformAt t * GetParentToWorldTransform p t

/-- `convertFromUsd`: copies a `GfMatrix4d` entry by entry into a
`Ufe::Matrix4d`. -/
def convertFromUsd (m : Mat4) : Mat4 :=
  Matrix.of fun i j => m i j

/-- `primToUfeXform(prim, time)`: the local-to-world transform from an
xform cache at `time`, converted. -/
def primToUfeXform (prim : UsdPrim) (time : TimeCode) : Mat4 :=
  convertFromUsd (GetLocalToWorldTransform prim time)

/-- `primToUfeExclusiveXform(prim, time)`: the parent-to-world transform
from an xform cache at `time`, converted. -/
def primToUfeExclusiveXform (prim : UsdPrim) (time : TimeCode) : Mat4 :=
  convertFromUsd (GetParentToWorldTransform prim time)

/-- `UsdTransform3d::segmentInclusiveMatrix()`: returns
`primToUfeXform(fItem->prim(), getTime(path()))`. -/
def UsdTransform3d.segmentInclusiveMatrix (tr : UsdTransform3d) : Cpp Mat4 :=
  match tr.fItem with
  | none => .error .nullDeref
  | some item => .ok (primToUfeXform item.prim (getTime item.path))

/-- `UsdTransform3d::segmentExclusiveMatrix()`: returns
`primToUfeExclusiveXform(fItem->prim(), getTime(path()))`. -/
def UsdTransform3d.segmentExclusiveMatrix (tr : UsdTransform3d) : Cpp Mat4 :=
  match tr.fItem with
  | none => .error .nullDeref
  | some item => .ok (primToUfeExclusiveXform item.prim (getTime item.path))

/-- The drawing-style tokens of `UsdMayaGLHdRenderer::DRAWING_STYLES`
(hdRenderer.h lines 109-115). -/
inductive DRAWING_STYLES where
  | DRAW_POINTS
  | DRAW_WIREFRAME
  | DRAW_SHADED_FLAT
  | DRAW_SHADED_SMOOTH
  | DRAW_BOUNDING_BOX
deriving DecidableEq

/-- The draw modes of the external `UsdImagingGLRenderParams::drawMode`. -/
inductive UsdImagingGLDrawMode where
  | DRAW_POINTS
  | DRAW_WIREFRAME
  | DRAW_WIREFRAME_ON_SURFACE
  | DRAW_SHADED_FLAT
  | DRAW_SHADED_SMOOTH
  | DRAW_GEOM_ONLY
  | DRAW_GEOM_FLAT
  | DRAW_GEOM_SMOOTH
deriving DecidableEq

/-- The external `UsdImagingGLRenderParams`, restricted to the members this
interface talks about: the draw mode that `Render` overrides, and the
members (complexity, guide flags) that the interface documents as caller
controlled. -/
structure UsdImagingGLRenderParams where
  drawMode : UsdImagingGLDrawMode
  complexity : ℚ
  showGuides : Bool
  showRenderGuides : Bool
deriving DecidableEq

/-- A legacy-viewport draw request (`MDrawRequest`): carries the
drawing-style token set by `getDrawRequests` via `request.setToken`. -/
structure MDrawRequest where
  token : DRAWING_STYLES
deriving DecidableEq

/-- A legacy viewport (`M3dView`), identified opaquely. -/
structure M3dView where
  handle : ℕ
deriving DecidableEq

/-- State of a `UsdMayaGLHdRenderer`: the prim set up for drawing, the
excluded prim paths, and whether the cached imaging engine exists. -/
structure UsdMayaGLHdRenderer where
  renderedPrim : Option UsdPrim
  excludePrimPaths : List String
  rendererInitialized : Bool

/-- `UsdMayaGLHdRenderer::CheckRendererSetup(usdPrim, excludePaths)`:
records the prim to draw and the exclude paths, (re)creating the imaging
engine when they change (hdRenderer.h lines 126-131; the implementation is
not under `src/`, modelled from the header documentation). -/
def UsdMayaGLHdRenderer.CheckRendererSetup (r : UsdMayaGLHdRenderer)
    (usdPrim : UsdPrim) (excludePaths : List String) : UsdMayaGLHdRenderer :=
  { r with
    renderedPrim := some usdPrim
    excludePrimPaths := excludePaths
    rendererInitialized := true }

/- `UsdMayaGLHdRenderer::Render(aRequest, aView, params)` is declared in
hdRenderer.h lines 145-149 but implemented in hdRenderer.cpp, which is not
part of this fragment.  Its behaviour is not modelled here: the declaration
passes the view as a non-const `M3dView&`, and its documentation says only
that it overrides "some of the members" of `params`, "in particular, the
`drawMode`" — the signature and documentation alone determine neither the
call's effect on the view nor which other `params` members it rewrites, so
any definition of `Render` would have to invent both. -/

/-! ### Helper lemmas on the attribute store -/

theorem UsdAttribute.get_cons_self (rest : List (TimeCode × VtValue))
    (t : TimeCode) (v : VtValue) :
    UsdAttribute.get ⟨(t, v) :: rest⟩ t = some v := by
  simp [UsdAttribute.get, UsdAttribute.get.findSample]

theorem findAttr_setAttrList_get (l : List (String × UsdAttribute))
    (tok : String) (t : TimeCode) (v : VtValue) :
    (findAttr (setAttrList l tok t v) tok).bind (fun a => a.get t) = some v := by
  induction l with
  | nil =>
    simp [setAttrList, findAttr, UsdAttribute.get_cons_self]
  | cons hd tl ih =>
    obtain ⟨tok0, a⟩ := hd
    by_cases h : tok0 = tok
    · subst h
      simp [setAttrList, findAttr, UsdAttribute.get_cons_self]
    · simp [setAttrList, findAttr, h, ih]

theorem HasAttribute_setAttr (p : UsdPrim) (tok : String) (t : TimeCode)
    (v : VtValue) :
    (p.setAttr tok t v).HasAttribute tok = true := by
  have h := findAttr_setAttrList_get p.attributes tok t v
  simp only [UsdPrim.HasAttribute, UsdPrim.setAttr]
  cases hf : findAttr (setAttrList p.attributes tok t v) tok with
  | none => rw [hf] at h; simp at h
  | some a => simp

theorem getAttrVec3d_setAttr (p : UsdPrim) (tok : String) (t : TimeCode)
    (w : GfVec3d) :
    getAttrVec3d (p.setAttr tok t (VtValue.vec3d w)) tok t = some w := by
  unfold getAttrVec3d
  simp only [UsdPrim.setAttr]
  rw [findAttr_setAttrList_get]

theorem getAttrVec3f_setAttr (p : UsdPrim) (tok : String) (t : TimeCode)
    (w : GfVec3f) :
    getAttrVec3f (p.setAttr tok t (VtValue.vec3f w)) tok t = some w := by
  unfold getAttrVec3f
  simp only [UsdPrim.setAttr]
  rw [findAttr_setAttrList_get]

theorem getAttrVec3f_of_none (p : UsdPrim) (tok : String) (t : TimeCode)
    (h : (p.GetAttribute tok).bind (fun a => a.get t) = none) :
    getAttrVec3f p tok t = none := by
  unfold getAttrVec3f
  rw [show findAttr p.attributes tok = p.GetAttribute tok from rfl, h]

theorem getAttrVec3d_of_none (p : UsdPrim) (tok : String) (t : TimeCode)
    (h : (p.GetAttribute tok).bind (fun a => a.get t) = none) :
    getAttrVec3d p tok t = none := by
  unfold getAttrVec3d
  rw [show findAttr p.attributes tok = p.GetAttribute tok from rfl, h]

/-! ### Concrete fixtures -/

/-- A prim with no authored attributes and identity transforms. -/
def primEmpty : UsdPrim :=
  { attributes := [], localXform := [], parentToWorld := [] }

def path1 : UfePath := { segments := ["stage", "A"], time := 0 }

def item1 : UsdSceneItem := { path := path1, prim := primEmpty }

def tr1 : UsdTransform3d := { fItem := some item1 }

/-- A non-identity diagonal matrix. -/
def mDiag2 : Mat4 := Matrix.of fun i j => if i = j then 2 else 0

/-- A prim whose parent-to-world transform at time 0 is `mDiag2` (and whose
own local transform is unauthored, hence identity). -/
def primScaled : UsdPrim :=
  { attributes := [], localXform := [], parentToWorld := [(0, mDiag2)] }

def itemScaled : UsdSceneItem := { path := path1, prim := primScaled }

def trScaled : UsdTransform3d := { fItem := some itemScaled }

/-- `convertFromUsd` copies every entry, so it is the identity map on
matrices. -/
theorem convertFromUsd_eq (m : Mat4) : convertFromUsd m = m := rfl

/-! ### Claim theorems -/

/-- Claim C1 (code bug exhibited): the matrix operations compiled at
`UFE_PREVIEW_VERSION_NUM >= 2021` are TODO stubs.  On a valid item,
`setMatrixCmd` returns the null command pointer instead of a non-null
undoable command, and `getMatrix` is independent of the held item (it
returns a default-constructed matrix), so on an item whose local-to-world
transform is `mDiag2` it does not return that transform. -/
theorem C1_matrix_ops_stubbed :
    UsdTransform3d.setMatrixCmd tr1 1 = Except.ok none ∧
    UsdTransform3d.getMatrix trScaled = UsdTransform3d.getMatrix tr1 ∧
    UsdTransform3d.segmentInclusiveMatrix trScaled ≠
      UsdTransform3d.getMatrix trScaled := by
  refine ⟨rfl, rfl, ?_⟩
  have h3 : UsdTransform3d.segmentInclusiveMatrix trScaled = Except.ok mDiag2 := by
    show Except.ok (primToUfeXform primScaled (getTime path1)) = _
    simp only [primToUfeXform, convertFromUsd_eq, GetLocalToWorldTransform,
      GetParentToWorldTransform, UsdPrim.localXformAt, primScaled, sampledMat,
      getTime, path1]
    norm_num [one_mul]
  rw [h3]
  intro h
  have h4 : mDiag2 = defaultUfeMatrix4d := by
    injection h
  have h5 : (2 : ℚ) = 0 := by
    have h6 := congrFun (congrFun h4 0) 0
    simp [mDiag2, defaultUfeMatrix4d] at h6
  norm_num at h5

/-- Claim C2 counterexample: on a concrete valid scene item,
`scalePivotTranslateCmd()` does not return a command; it throws a
`std::runtime_error`, refuting the claim that every listed command factory
returns an undoable command without raising. -/
theorem C2_counterexample :
    UsdTransform3d.scalePivotTranslateCmd tr1 =
      Except.error
        (CppError.exn "UsdTransform3d::scalePivotTranslateCmd() not implemented") :=
  rfl

/-- Claim C2 (amended): for every valid scene item, `translateCmd`,
`rotateCmd`, `scaleCmd` and `rotatePivotTranslateCmd` each return an
undoable command without raising; `scalePivotTranslateCmd` instead throws a
runtime error. -/
theorem C2_command_factories (tr : UsdTransform3d) (item : UsdSceneItem)
    (h : tr.fItem = some item) (x y z : ℚ) :
    tr.translateCmd x y z =
      Except.ok (UndoableCommand.translateCmd item.path x y z) ∧
    tr.rotateCmd x y z =
      Except.ok (UndoableCommand.rotateCmd item.path x y z) ∧
    tr.scaleCmd x y z =
      Except.ok (UndoableCommand.scaleCmd item.path x y z) ∧
    tr.rotatePivotTranslateCmd =
      Except.ok (UndoableCommand.rotatePivotTranslateCmd item.path) ∧
    tr.scalePivotTranslateCmd =
      Except.error
        (CppError.exn "UsdTransform3d::scalePivotTranslateCmd() not implemented") := by
  refine ⟨?_, ?_, ?_, ?_, rfl⟩ <;>
    simp [UsdTransform3d.translateCmd, UsdTransform3d.rotateCmd,
      UsdTransform3d.scaleCmd, UsdTransform3d.rotatePivotTranslateCmd,
      UsdTransform3d.path, h, Except.map]

/-- Witness for C2 at a concrete transform and deltas. -/
theorem C2_command_factories_witness :
    tr1.fItem = some item1 ∧
    (tr1.translateCmd 2 3 4 =
      Except.ok (UndoableCommand.translateCmd item1.path 2 3 4) ∧
    tr1.rotateCmd 2 3 4 =
      Except.ok (UndoableCommand.rotateCmd item1.path 2 3 4) ∧
    tr1.scaleCmd 2 3 4 =
      Except.ok (UndoableCommand.scaleCmd item1.path 2 3 4) ∧
    tr1.rotatePivotTranslateCmd =
      Except.ok (UndoableCommand.rotatePivotTranslateCmd item1.path) ∧
    tr1.scalePivotTranslateCmd =
      Except.error
        (CppError.exn "UsdTransform3d::scalePivotTranslateCmd() not implemented")) :=
  ⟨rfl, C2_command_factories tr1 item1 rfl 2 3 4⟩

/-- Claim C3: each observer defaults independently — whenever its own
xformOp attribute is absent, or present but without a value at the queried
time, `scale()` returns `(0, 0, 0)` and not the multiplicative identity
`(1, 1, 1)`, and likewise `rotation()`, `translation()` and `rotatePivot()`
each return `(0, 0, 0)` under their respective attribute's condition,
whatever the other attributes hold. -/
theorem C3_zero_defaults (tr : UsdTransform3d) (item : UsdSceneItem)
    (h : tr.fItem = some item) :
    ((item.prim.HasAttribute "xformOp:scale" = false ∨
      (item.prim.GetAttribute "xformOp:scale").bind
        (fun a => a.get (getTime item.path)) = none) →
      tr.scale = Except.ok ⟨0, 0, 0⟩ ∧ tr.scale ≠ Except.ok ⟨1, 1, 1⟩) ∧
    ((item.prim.HasAttribute "xformOp:rotateXYZ" = false ∨
      (item.prim.GetAttribute "xformOp:rotateXYZ").bind
        (fun a => a.get (getTime item.path)) = none) →
      tr.rotation = Except.ok ⟨0, 0, 0⟩) ∧
    ((item.prim.HasAttribute "xformOp:translate" = false ∨
      (item.prim.GetAttribute "xformOp:translate").bind
        (fun a => a.get (getTime item.path)) = none) →
      tr.translation = Except.ok ⟨0, 0, 0⟩) ∧
    ((item.prim.HasAttribute "xformOp:translate:pivot" = false ∨
      (item.prim.GetAttribute "xformOp:translate:pivot").bind
        (fun a => a.get (getTime item.path)) = none) →
      tr.rotatePivot = Except.ok ⟨0, 0, 0⟩) := by
  refine ⟨fun hsc => ?_, fun hrot => ?_, fun htr => ?_, fun hpiv => ?_⟩
  · have hscale : tr.scale = Except.ok ⟨0, 0, 0⟩ := by
      simp only [UsdTransform3d.scale, h]
      rcases hsc with h1 | h1
      · simp [h1]
      · rw [getAttrVec3f_of_none _ _ _ h1]
        split <;> rfl
    refine ⟨hscale, ?_⟩
    rw [hscale]
    intro hh
    simp at hh
  · simp only [UsdTransform3d.rotation, h]
    rcases hrot with h1 | h1
    · simp [h1]
    · rw [getAttrVec3f_of_none _ _ _ h1]
      split <;> rfl
  · simp only [UsdTransform3d.translation, h]
    rcases htr with h1 | h1
    · simp [h1]
    · rw [getAttrVec3d_of_none _ _ _ h1]
      split <;> rfl
  · simp only [UsdTransform3d.rotatePivot, h]
    rcases hpiv with h1 | h1
    · simp [h1]
    · rw [getAttrVec3f_of_none _ _ _ h1]
      split <;> rfl

/-- Witness for C3 at a prim with no authored attributes. -/
theorem C3_zero_defaults_witness :
    tr1.fItem = some item1 ∧
    item1.prim.HasAttribute "xformOp:scale" = false ∧
    item1.prim.HasAttribute "xformOp:rotateXYZ" = false ∧
    item1.prim.HasAttribute "xformOp:translate" = false ∧
    item1.prim.HasAttribute "xformOp:translate:pivot" = false ∧
    (tr1.scale = Except.ok ⟨0, 0, 0⟩ ∧
    tr1.scale ≠ Except.ok ⟨1, 1, 1⟩) ∧
    tr1.rotation = Except.ok ⟨0, 0, 0⟩ ∧
    tr1.translation = Except.ok ⟨0, 0, 0⟩ ∧
    tr1.rotatePivot = Except.ok ⟨0, 0, 0⟩ :=
  ⟨rfl, rfl, rfl, rfl, rfl,
    (C3_zero_defaults tr1 item1 rfl).1 (Or.inl rfl),
    (C3_zero_defaults tr1 item1 rfl).2.1 (Or.inl rfl),
    (C3_zero_defaults tr1 item1 rfl).2.2.1 (Or.inl rfl),
    (C3_zero_defaults tr1 item1 rfl).2.2.2 (Or.inl rfl)⟩

/-- Claim C4: `translate(x, y, z)` authors `xformOp:translate` so that a
subsequent `translation()` at the same time code returns exactly
`(x, y, z)`. -/
theorem C4_translate_translation_roundtrip (tr : UsdTransform3d)
    (item : UsdSceneItem) (h : tr.fItem = some item) (x y z : ℚ) :
    (tr.translate x y z).bind UsdTransform3d.translation =
      Except.ok ⟨x, y, z⟩ := by
  simp only [UsdTransform3d.translate, h, Except.bind]
  simp [UsdTransform3d.translation, translateOp, HasAttribute_setAttr,
    getAttrVec3d_setAttr]

/-- Witness for C4 at a concrete transform and deltas. -/
theorem C4_translate_translation_roundtrip_witness :
    tr1.fItem = some item1 ∧
    (tr1.translate 5 6 7).bind UsdTransform3d.translation =
      Except.ok ⟨5, 6, 7⟩ :=
  ⟨rfl, C4_translate_translation_roundtrip tr1 item1 rfl 5 6 7⟩

/-- Claim C5: `segmentInclusiveMatrix()` returns the prim's local-to-world
transform and `segmentExclusiveMatrix()` the prim's parent-to-world
transform, both at the time obtained from the item's path; when the prim's
own local transform there is the identity, the two coincide. -/
theorem C5_segment_matrices (tr : UsdTransform3d) (item : UsdSceneItem)
    (h : tr.fItem = some item)
    (hloc : item.prim.localXformAt (getTime item.path) = 1) :
    tr.segmentInclusiveMatrix =
      Except.ok (GetLocalToWorldTransform item.prim (getTime item.path)) ∧
    tr.segmentExclusiveMatrix =
      Except.ok (GetParentToWorldTransform item.prim (getTime item.path)) ∧
    tr.segmentInclusiveMatrix = tr.segmentExclusiveMatrix := by
  have h1 : tr.segmentInclusiveMatrix =
      Except.ok (GetLocalToWorldTransform item.prim (getTime item.path)) := by
    simp only [UsdTransform3d.segmentInclusiveMatrix, h]
    rfl
  have h2 : tr.segmentExclusiveMatrix =
      Except.ok (GetParentToWorldTransform item.prim (getTime item.path)) := by
    simp only [UsdTransform3d.segmentExclusiveMatrix, h]
    rfl
  refine ⟨h1, h2, ?_⟩
  rw [h1, h2, GetLocalToWorldTransform, hloc, one_mul]

/-- Witness for C5 at a prim with unauthored (identity) local transform. -/
theorem C5_segment_matrices_witness :
    tr1.fItem = some item1 ∧
    item1.prim.localXformAt (getTime item1.path) = 1 ∧
    (tr1.segmentInclusiveMatrix =
      Except.ok (GetLocalToWorldTransform item1.prim (getTime item1.path)) ∧
    tr1.segmentExclusiveMatrix =
      Except.ok (GetParentToWorldTransform item1.prim (getTime item1.path)) ∧
    tr1.segmentInclusiveMatrix = tr1.segmentExclusiveMatrix) :=
  ⟨rfl, rfl, C5_segment_matrices tr1 item1 rfl rfl⟩

/-- Claim C6: under `UFE_PREVIEW_VERSION_NUM < 2013` the parameterless
factories create their commands at the operation's identity —
`translateCmd()` and `rotateCmd()` with `(0, 0, 0)`, `scaleCmd()` with
`(1, 1, 1)` — while at 2013 and above the factories receive the three
deltas explicitly and pass them through. -/
theorem C6_version_gated_factories (tr : UsdTransform3d) (item : UsdSceneItem)
    (h : tr.fItem = some item) (x y z : ℚ) :
    tr.translateCmdLegacy =
      Except.ok (UndoableCommand.translateCmd item.path 0 0 0) ∧
    tr.rotateCmdLegacy =
      Except.ok (UndoableCommand.rotateCmd item.path 0 0 0) ∧
    tr.scaleCmdLegacy =
      Except.ok (UndoableCommand.scaleCmd item.path 1 1 1) ∧
    tr.translateCmd x y z =
      Except.ok (UndoableCommand.translateCmd item.path x y z) ∧
    tr.rotateCmd x y z =
      Except.ok (UndoableCommand.rotateCmd item.path x y z) ∧
    tr.scaleCmd x y z =
      Except.ok (UndoableCommand.scaleCmd item.path x y z) := by
  refine ⟨?_, ?_, ?_, ?_, ?_, ?_⟩ <;>
    simp [UsdTransform3d.translateCmdLegacy, UsdTransform3d.rotateCmdLegacy,
      UsdTransform3d.scaleCmdLegacy, UsdTransform3d.translateCmd,
      UsdTransform3d.rotateCmd, UsdTransform3d.scaleCmd,
      UsdTransform3d.path, h, Except.map]

/-- Witness for C6 at a concrete transform and deltas. -/
theorem C6_version_gated_factories_witness :
    tr1.fItem = some item1 ∧
    (tr1.translateCmdLegacy =
      Except.ok (UndoableCommand.translateCmd item1.path 0 0 0) ∧
    tr1.rotateCmdLegacy =
      Except.ok (UndoableCommand.rotateCmd item1.path 0 0 0) ∧
    tr1.scaleCmdLegacy =
      Except.ok (UndoableCommand.scaleCmd item1.path 1 1 1) ∧
    tr1.translateCmd 8 9 10 =
      Except.ok (UndoableCommand.translateCmd item1.path 8 9 10) ∧
    tr1.rotateCmd 8 9 10 =
      Except.ok (UndoableCommand.rotateCmd item1.path 8 9 10) ∧
    tr1.scaleCmd 8 9 10 =
      Except.ok (UndoableCommand.scaleCmd item1.path 8 9 10)) :=
  ⟨rfl, C6_version_gated_factories tr1 item1 rfl 8 9 10⟩

/-- Claim C7: the scale pivot is an alias of the rotate pivot —
`scalePivot()` returns exactly what `rotatePivot()` returns, and
`scalePivotTranslate(x, y, z)` acts on the object exactly as
`rotatePivotTranslate(x, y, z)` does. -/
theorem C7_scale_pivot_aliases_rotate_pivot (tr : UsdTransform3d)
    (x y z : ℚ) :
    tr.scalePivot = tr.rotatePivot ∧
    tr.scalePivotTranslate x y z = tr.rotatePivotTranslate x y z :=
  ⟨rfl, rfl⟩

/-- Claim C8 counterexample: `sceneItem()` on the default-constructed
object (parameterless `create()`) does not dereference the null `fItem`; it
returns the null pointer as an ordinary value, refuting the claim that
every listed operation dereferences a null pointer there. -/
theorem C8_counterexample :
    UsdTransform3d.sceneItem UsdTransform3d.create = Except.ok none ∧
    UsdTransform3d.sceneItem UsdTransform3d.create ≠
      Except.error CppError.nullDeref :=
  ⟨rfl, fun h => Except.noConfusion h⟩

/-- Claim C8 (amended): every observer and mutator of `UsdTransform3d` that
dereferences the held item — `path`, the translate/rotate/scale observers
and mutators, the pivot accessors and the segment matrices, but not
`sceneItem`, which returns the pointer without dereferencing — requires a
non-null `fItem`: on the default-constructed object each of them
dereferences the null pointer, while after construction with an item (or
`setItem` with a valid item) `path()` succeeds. -/
theorem C8_null_item_precondition (item : UsdSceneItem) (x y z : ℚ) :
    UsdTransform3d.create.path = Except.error CppError.nullDeref ∧
    UsdTransform3d.create.translation = Except.error CppError.nullDeref ∧
    UsdTransform3d.create.rotation = Except.error CppError.nullDeref ∧
    UsdTransform3d.create.scale = Except.error CppError.nullDeref ∧
    UsdTransform3d.create.rotatePivot = Except.error CppError.nullDeref ∧
    UsdTransform3d.create.scalePivot = Except.error CppError.nullDeref ∧
    UsdTransform3d.create.translate x y z = Except.error CppError.nullDeref ∧
    UsdTransform3d.create.rotate x y z = Except.error CppError.nullDeref ∧
    UsdTransform3d.create.scaleSet x y z = Except.error CppError.nullDeref ∧
    UsdTransform3d.create.rotatePivotTranslate x y z =
      Except.error CppError.nullDeref ∧
    UsdTransform3d.create.scalePivotTranslate x y z =
      Except.error CppError.nullDeref ∧
    UsdTransform3d.create.segmentInclusiveMatrix =
      Except.error CppError.nullDeref ∧
    UsdTransform3d.create.segmentExclusiveMatrix =
      Except.error CppError.nullDeref ∧
    UsdTransform3d.create.sceneItem = Except.ok none ∧
    (UsdTransform3d.create.setItem (some item)).path = Except.ok item.path ∧
    (UsdTransform3d.createWithItem (some item)).path = Except.ok item.path :=
  ⟨rfl, rfl, rfl, rfl, rfl, rfl, rfl, rfl, rfl, rfl, rfl, rfl, rfl, rfl,
    rfl, rfl⟩
